import Mathlib

/-!
Verification of the ai-livestream content-pipeline orchestrator.

Shallow embedding of the Python modules `livestream_manager.py`, `web_scraper.py`,
`database_handler.py`, `text_processing.py`, `audio_handler.py`, `utils.py`,
`configs.py` and `data/webdriver_handler.py`.  Python strings are modelled as
`List Char` where character-level behaviour matters and as `String` otherwise;
machine-level details (actual browsers, FAISS indexes, the OpenAI client) are
abstract parameters; fallible Python code returns `Except`.
-/

set_option linter.unusedVariables false

namespace AiLivestream

/-- Python exception kinds raised by the modelled code paths. -/
inductive PyError
  | attributeError
  | typeError
  | runtimeError (msg : String)
deriving DecidableEq, Repr

/-! ### Audio handling (modules/audio_handler.py) -/

/-- A pydub `AudioSegment`, modelled by its length in milliseconds
(pydub slices and concatenates by milliseconds). -/
structure AudioSegment where
  ms : ℕ
deriving DecidableEq, Repr

/-- `generate_empty_audio`: `AudioSegment.silent(duration=5000)` — 5 seconds of silence. -/
def generate_empty_audio : AudioSegment := ⟨5000⟩

/-- pydub concatenation `a + b`. -/
def segAppend (a b : AudioSegment) : AudioSegment := ⟨a.ms + b.ms⟩

/-- pydub slicing `seg[:n]` — keeps the first `n` milliseconds. -/
def segTruncate (a : AudioSegment) (n : ℕ) : AudioSegment := ⟨min a.ms n⟩

/-- pydub `duration_seconds`: length in milliseconds divided by 1000. -/
def durationSeconds (a : AudioSegment) : ℚ := (a.ms : ℚ) / 1000

/-- The `AudioInfo` dict returned by `generate_audio_handler` and consumed by `play_audio`. -/
structure AudioInfo where
  name : String
  duration_seconds : ℚ
deriving DecidableEq, Repr

/-- `generate_audio_handler`: loads the three parts (5 s silence, TTS part 1, TTS part 2),
combines them (`audio_part1 + audio_part2 + audio_part3`), truncates with
`combined_audio = combined_audio[:60000]` before exporting, and returns the exported
file name with the truncated segment's `duration_seconds`.  The TTS parts have
arbitrary lengths (they depend on the script). -/
def generate_audio_handler (tts_part1 tts_part2 : AudioSegment) (file_name : String) : AudioInfo :=
  let combined_audio := segAppend (segAppend generate_empty_audio tts_part1) tts_part2
  let truncated := segTruncate combined_audio 60000
  { name := "combined_output_" ++ file_name ++ ".mp3"
    duration_seconds := durationSeconds truncated }

/-- `play_audio`: displays the audio and then does `await asyncio.sleep(audio_duration)` —
the wall-clock sleep equals the `duration_seconds` of the given `AudioInfo`. -/
def play_audio_sleep_seconds (file_info : AudioInfo) : ℚ :=
  file_info.duration_seconds

/-! ### The CSE API call counter (modules/configs.py, utils.py, web_scraper.py)

`modules.configs` defines `cse_api_call_count = 0`.  Both `modules.utils` and
`modules.web_scraper` do `from modules.configs import cse_api_call_count`, which copies
the binding into the importing module's own namespace.  A later `global cse_api_call_count`
inside a function refers to the *defining module's* namespace of that function, so the three
modules hold three independent bindings once any of them assigns. -/

/-- The three module-level bindings of `cse_api_call_count`. -/
structure CounterBindings where
  configs_count : ℕ
  utils_count : ℕ
  scraper_count : ℕ
deriving DecidableEq, Repr

/-- Bindings right after import time: `configs.py` sets the counter to 0 and the
from-imports in `utils.py` and `web_scraper.py` copy that value. -/
def importTimeBindings : CounterBindings := ⟨0, 0, 0⟩

/-- `reset_global_variables` (modules/utils.py):
`global cse_api_call_count; cse_api_call_count = 0`.  The `global` statement targets the
`modules.utils` namespace, so only utils' own binding is assigned. -/
def reset_global_variables (s : CounterBindings) : CounterBindings :=
  { s with utils_count := 0 }

/-- One `google_search` call (modules/web_scraper.py):
`global cse_api_call_count; ... cse_api_call_count += 1` under `cse_api_call_lock`.
Here `global` targets the `modules.web_scraper` namespace.  Returns the updated bindings
together with the value the call observes (and prints) after incrementing. -/
def google_search_count (s : CounterBindings) : CounterBindings × ℕ :=
  ({ s with scraper_count := s.scraper_count + 1 }, s.scraper_count + 1)

/-- `k` consecutive `google_search` calls. -/
def google_search_calls : ℕ → CounterBindings → CounterBindings
  | 0, s => s
  | k + 1, s => google_search_calls k (google_search_count s).1

/-- One generation phase: `generate_livestream` calls `reset_global_variables()` at entry,
then the cycle performs `k` `google_search` calls. -/
def generation_phase (k : ℕ) (s : CounterBindings) : CounterBindings :=
  google_search_calls k (reset_global_variables s)

/-! ### Cycle structure of `collections_handler` (modules/livestream_manager.py)

`collections_handler` first awaits one full `scene_handler` pass, then runs
`for i in range(total_collection_iterations)`.  On `i == total_collection_iterations - 1`
it creates the `generate_livestream` task, awaits `asyncio.gather` of the replay and that
task, and finally awaits the recursive `collections_handler` call; on every other
iteration it just awaits another `scene_handler` pass. -/

/-- Observable events of one `collections_handler` cycle. -/
inductive CycleEvent
  | playBatch   -- one complete `scene_handler` pass over all scenes
  | genStart    -- `asyncio.create_task(generate_livestream(...))`
  | joinBoth    -- the `asyncio.gather(scene_handler(...), generate_new_scene_items_task)` returns
  | recurseCall -- the recursive `collections_handler(...)` call is made
deriving DecidableEq, Repr

/-- The event trace of one cycle of `collections_handler`.  The leading `playBatch` is the
initial `scene_handler` call before the loop; inside the loop the source's
`if i == (total_collection_iterations - 1)` branch emits generation start, the concurrent
replay (which runs between the generation task's start and the join), the join of both, and
the recursive call; the else branch emits one replay. -/
def collections_handler_trace (total_collection_iterations : ℕ) : List CycleEvent :=
  CycleEvent.playBatch ::
    (List.range total_collection_iterations).flatMap (fun i =>
      if i = total_collection_iterations - 1 then
        [CycleEvent.genStart, CycleEvent.playBatch, CycleEvent.joinBoth, CycleEvent.recurseCall]
      else
        [CycleEvent.playBatch])

/-! ### Worker pool (modules/data/webdriver_handler.py) -/

/-- Outcome of running one driver allocation: whether a driver was returned or
`RuntimeError` was raised, with the number of attempts made and the total seconds slept
(`time.sleep(1)` after each failed attempt). -/
structure AllocRun where
  result : Except PyError Unit
  attempts : ℕ
  sleep_seconds : ℕ
deriving Repr

/-- The retry loop of `initialize_chrome_driver`: `while retry_count < 10`, one
initialization attempt per pass (`outcome retry_count = true` iff the attempt at that
`retry_count` succeeds); on failure `retry_count += 1` and `time.sleep(1)`; when the loop
guard fails, `raise RuntimeError(...)`.  `fuel = 10 - retry_count` implements the guard. -/
def initialize_chrome_driver_loop (outcome : ℕ → Bool) : ℕ → ℕ → AllocRun
  | _, 0 =>
      ⟨.error (.runtimeError "Failed to initialize ChromeDriver after several attempts"), 0, 0⟩
  | retry_count, fuel + 1 =>
      if outcome retry_count then ⟨.ok (), 1, 0⟩
      else
        let r := initialize_chrome_driver_loop outcome (retry_count + 1) fuel
        ⟨r.result, r.attempts + 1, r.sleep_seconds + 1⟩

/-- `initialize_chrome_driver`, parametrized by the per-attempt success oracle. -/
def initialize_chrome_driver (outcome : ℕ → Bool) : AllocRun :=
  initialize_chrome_driver_loop outcome 0 10

/-- `create_drivers(num_of_drivers)`: one `initialize_chrome_driver` run per requested
driver (via the startup semaphore, which throttles but does not change results).
`outcomes i` is the attempt oracle of allocation `i`. -/
def create_drivers_runs (outcomes : ℕ → ℕ → Bool) (num_of_drivers : ℕ) : List AllocRun :=
  (List.range num_of_drivers).map (fun i => initialize_chrome_driver (outcomes i))

/-- `asyncio.gather` over the allocation coroutines: if any allocation raises, the
exception propagates out of `create_drivers`; otherwise the list of drivers (one `Unit`
per allocation) is returned in order. -/
def gather_results : List AllocRun → Except PyError (List Unit)
  | [] => .ok []
  | r :: rest =>
    match r.result with
    | .error e => .error e
    | .ok _ =>
      match gather_results rest with
      | .error e => .error e
      | .ok l => .ok (() :: l)

/-- `create_drivers`, returning either all `num_of_drivers` drivers or the propagated error. -/
def create_drivers (outcomes : ℕ → ℕ → Bool) (num_of_drivers : ℕ) : Except PyError (List Unit) :=
  gather_results (create_drivers_runs outcomes num_of_drivers)

/-! ### Scene playback scheduling (modules/livestream_manager.py)

`process_one_scene` and `scene_handler` are modelled on a virtual clock: every await in
the source is reflected as a `max`/`+` over completion times, so the model captures
exactly the await structure (which task must finish before which step runs), with all
stage durations arbitrary. -/

/-- Timing parameters of one scene, in abstract time units. -/
structure SceneTiming where
  generateMs : ℕ         -- duration of `generate_scene_content`
  downloadMs : ℕ         -- duration of `download_file_handler(saved_stream_items)`
  audioMs : ℕ            -- length of the scene's audio (`play_audio` sleeps this long)
  youtubeMs : Option ℕ   -- `some d` iff `combined_output_youtube_interactivity.mp3` exists, with its length
deriving DecidableEq, Repr

/-- The interval during which one `play_audio` task runs. -/
structure PlayInterval where
  start : ℕ
  finish : ℕ
deriving DecidableEq, Repr

/-- `process_one_scene(scene_items, audio_file_name, previous_audio_task)` on the virtual
clock.  Branches of the source:
* YouTube-interactivity file exists: await `previous_audio_task` (if any), then gather
  the YouTube `play_audio` task with `generate_scene_content`;
* else if a previous task exists: gather `previous_audio_task` with
  `generate_scene_content`;
* else: just await `generate_scene_content`.
Afterwards `download_file_handler` is awaited and the scene's `play_audio` task is
created (not awaited) and returned.  Returns the created task's play interval and the
time at which `process_one_scene` returns to its caller. -/
def process_one_scene (now : ℕ) (previous_audio_task : Option PlayInterval)
    (sc : SceneTiming) : PlayInterval × ℕ :=
  match sc.youtubeMs with
  | some yt =>
      let afterPrev :=
        match previous_audio_task with
        | some p => max now p.finish
        | none => now
      let afterGather := max (afterPrev + yt) (afterPrev + sc.generateMs)
      let afterDownload := afterGather + sc.downloadMs
      (⟨afterDownload, afterDownload + sc.audioMs⟩, afterDownload)
  | none =>
      match previous_audio_task with
      | some p =>
          let afterGather := max p.finish (now + sc.generateMs)
          let afterDownload := afterGather + sc.downloadMs
          (⟨afterDownload, afterDownload + sc.audioMs⟩, afterDownload)
      | none =>
          let afterDownload := now + sc.generateMs + sc.downloadMs
          (⟨afterDownload, afterDownload + sc.audioMs⟩, afterDownload)

/-- `scene_handler(scenes_items, initial_previous_task)`: sequentially runs
`process_one_scene` for each scene, passing the returned `play_audio` task forward as
`previous_audio_task`.  Returns the play intervals of the created playback tasks in
order, together with the final task (the function's return value). -/
def scene_handler (now : ℕ) (initial_previous_task : Option PlayInterval) :
    List SceneTiming → List PlayInterval × Option PlayInterval
  | [] => ([], initial_previous_task)
  | sc :: rest =>
      let r := process_one_scene now initial_previous_task sc
      let tail := scene_handler r.2 (some r.1) rest
      (r.1 :: tail.1, tail.2)

/-! ### Fetch resilience layer (modules/web_scraper.py, `fetch_and_process_slot`)

One fetch attempt (`fetch_html`) either raises (e.g. the `TypeError` from
`split_markdown_chunks(None, 500)` when a PDF download fails) or returns `clean_texts`:
`none` models Python `None` (load failures are caught inside `fetch_html_sync` and
returned as `None`), `some texts` a list of chunk strings.  Both attempts are made with
`should_quit=False`, so `fetch_html` itself never disposes the driver. -/

/-- Result of one `fetch_html` call. -/
abbrev FetchOutcome := Except PyError (Option (List String))

/-- Python truthiness of `clean_texts` (`None` and `[]` are falsy). -/
def truthyTexts : Option (List String) → Bool
  | none => false
  | some l => !l.isEmpty

/-- Observable worker events during `fetch_and_process_slot`:  fetch attempts (with the
driver used) and `driver.quit()` disposals. -/
inductive SlotEvent
  | fetchAttempt (driver : ℕ)
  | dispose (driver : ℕ)
deriving DecidableEq, Repr

/-- The value returned by a finished slot. -/
inductive SlotValue
  | db (texts : List String) (used_backup : Bool)  -- `process_text_to_db(clean_texts, url_for_metadata)`
  | texts (texts : List String)                    -- `return clean_texts` (when `process_to_db` is false)
deriving DecidableEq, Repr

/-- The tail of `fetch_and_process_slot`:
`if clean_texts and process_to_db: return process_text_to_db(clean_texts, url_for_metadata)`
then `return clean_texts if clean_texts else None`.  `used_backup` records which URL is in
`url_for_metadata`. -/
def finish_slot (clean_texts : Option (List String)) (used_backup : Bool)
    (process_to_db : Bool) : Option SlotValue :=
  match clean_texts with
  | some l =>
      if !l.isEmpty && process_to_db then some (.db l used_backup)
      else if !l.isEmpty then some (.texts l)
      else none
  | none => none

/-- `fetch_and_process_slot(driver, primary_url, backup_url, process_to_db, semaphore)`.
`d0` is the driver passed in; the fresh driver created for the backup attempt is `d0 + 1`.
`primary`/`backup` are the outcomes the two `fetch_html` calls would produce;
`backup_url` is whether a backup URL is configured (`backup_url` truthy).
Control flow of the source:
* run the primary attempt (`should_quit=False`, driver kept);
* `if not clean_texts and backup_url`: `driver.quit()` the current driver
  unconditionally, `create_drivers(1)` one fresh driver, rebind `driver` to it, and run
  the backup attempt;
* then the `process_to_db` / plain-return tail;
* the `finally` block always quits whichever driver is currently bound, even when the
  backup attempt (or the primary attempt) raised.
Returns the slot's result (exception or value) and the event list in order. -/
def fetch_and_process_slot (d0 : ℕ) (primary : FetchOutcome) (backup_url : Bool)
    (backup : FetchOutcome) (process_to_db : Bool) :
    Except PyError (Option SlotValue) × List SlotEvent :=
  match primary with
  | .error e => (.error e, [.fetchAttempt d0, .dispose d0])
  | .ok clean_texts =>
      if !truthyTexts clean_texts && backup_url then
        match backup with
        | .error e =>
            (.error e, [.fetchAttempt d0, .dispose d0, .fetchAttempt (d0 + 1), .dispose (d0 + 1)])
        | .ok clean_texts2 =>
            (.ok (finish_slot clean_texts2 true process_to_db),
             [.fetchAttempt d0, .dispose d0, .fetchAttempt (d0 + 1), .dispose (d0 + 1)])
      else
        (.ok (finish_slot clean_texts false process_to_db), [.fetchAttempt d0, .dispose d0])

/-- Whether an event is a disposal. -/
def SlotEvent.isDispose : SlotEvent → Bool
  | .dispose _ => true
  | _ => false

/-- Whether an event is a fetch attempt. -/
def SlotEvent.isAttempt : SlotEvent → Bool
  | .fetchAttempt _ => true
  | _ => false

/-! ### Retrieval store builder and query layer (modules/database_handler.py) -/

/-- The module's `Document` class (aligned with langchain's): text content plus metadata.
The metadata dict holds the originating source under the `'website'` key; it is modelled
by that value. -/
structure Document where
  page_content : String
  metadata : String
deriving DecidableEq, Repr

/-- A FAISS vector store: `docstore._dict.values()` in insertion order, plus the
similarity ranking `similarity_search_with_score(query, k)` as an abstract black box
(the actual ranking lives in FAISS/OpenAI embeddings, external collaborators). -/
structure FaissStore where
  docstore : List Document
  search : String → ℕ → List Document

/-- `FAISS.from_documents(docs, embeddings)`: builds one brand-new index over exactly
`docs`.  `faiss_rank` is the abstract index-construction black box. -/
def FAISS_from_documents (faiss_rank : List Document → String → ℕ → List Document)
    (docs : List Document) : FaissStore :=
  ⟨docs, faiss_rank docs⟩

/-- The module's `Database` class: links a FAISS store to its metadata.  `database` is an
`Option` because the variable can hold Python `None` (the sentinel that
`similarity_search` checks); `metadata` models `metadata['website']` (the merged database
stores the literal string `'Not used'` there). -/
structure DatabaseClass where
  database : Option FaissStore
  metadata : String

/-- One `{'query': ..., 'database_list': [...]}` record returned by
`create_databases_for_query`.  A list entry that is Python `None` (a slot whose fetch
failed, see `fetch_and_process_slot`) is modelled by `none`. -/
structure QueryRecord where
  query : String
  database_list : List (Option DatabaseClass)

/-- The flattening comprehension at the top of `create_unique_databases`:
`[db for sublist in database_list for item in sublist for db in item['database_list']]`,
restricted to lists of actual `Database` objects (the claim's per-source Stores). -/
def flatten_database_list (database_list : List (List QueryRecord)) :
    List (Option DatabaseClass) :=
  (database_list.map (fun sublist => (sublist.map QueryRecord.database_list).flatten)).flatten

/-- The dedup loop of `create_unique_databases` on a list of `Database` objects:
`seen_metadata` is a Python `set` of `db.metadata['website']` values (modelled as a list
with membership); the first `Database` seen for a given website is appended to
`unique_databases`, later ones are dropped. -/
def unique_databases_loop : List DatabaseClass → List String → List DatabaseClass
  | [], _ => []
  | db :: rest, seen_metadata =>
      if db.metadata ∈ seen_metadata then unique_databases_loop rest seen_metadata
      else db :: unique_databases_loop rest (db.metadata :: seen_metadata)

/-- The same dedup loop over the flattened list as it actually occurs, where an entry can
be Python `None` (a failed slot): accessing `db.metadata` on `None` raises
`AttributeError`. -/
def unique_from_flat : List (Option DatabaseClass) → List String → Except PyError (List DatabaseClass)
  | [], _ => .ok []
  | none :: _, _ => .error .attributeError
  | some db :: rest, seen_metadata =>
      if db.metadata ∈ seen_metadata then unique_from_flat rest seen_metadata
      else
        match unique_from_flat rest (db.metadata :: seen_metadata) with
        | .error e => .error e
        | .ok u => .ok (db :: u)

/-- `create_unique_databases(database_list)`: flatten the nested per-scene records, then
deduplicate keyed by `db.metadata['website']`, first seen wins. -/
def create_unique_databases (database_list : List (List QueryRecord)) :
    Except PyError (List DatabaseClass) :=
  unique_from_flat (flatten_database_list database_list) []

/-- The loop of `create_merged_database`: for each unique database take
`list(db.docstore._dict.values())` and extend `all_documents`; accessing `.docstore` on a
`None` database would raise `AttributeError`. -/
def collect_all_documents : List DatabaseClass → Except PyError (List Document)
  | [] => .ok []
  | db :: rest =>
      match db.database with
      | none => .error .attributeError
      | some store =>
          match collect_all_documents rest with
          | .error e => .error e
          | .ok docs => .ok (store.docstore ++ docs)

/-- `create_merged_database()`: rebuild one new `Database` from the combined documents of
all unique databases (`FAISS.from_documents` over the concatenation — a full rebuild, not
an incremental insert), with metadata `'Not used'`. -/
def create_merged_database (faiss_rank : List Document → String → ℕ → List Document)
    (unique_databases : List DatabaseClass) : Except PyError DatabaseClass :=
  match collect_all_documents unique_databases with
  | .error e => .error e
  | .ok all_documents =>
      .ok ⟨some (FAISS_from_documents faiss_rank all_documents), "Not used"⟩

/-- The result dict of `similarity_search`. -/
structure SearchResult where
  relevant_page_content : List String
  metadata : List String
deriving DecidableEq, Repr

/-- `similarity_search(query, database, num_of_docs_to_return)`:
`database = database.database` first (an `AttributeError` if the argument is `None`),
then the `if database is None` sentinel check, then
`database.similarity_search_with_score(query, k=num_of_docs_to_return)` with the page
contents and metadata of the returned documents. -/
def similarity_search (query : String) (database : Option DatabaseClass)
    (num_of_docs_to_return : ℕ) : Except PyError SearchResult :=
  match database with
  | none => .error .attributeError
  | some dbclass =>
      match dbclass.database with
      | none => .ok ⟨["None"], ["None"]⟩
      | some store =>
          let docs := store.search query num_of_docs_to_return
          .ok ⟨docs.map Document.page_content, docs.map Document.metadata⟩

/-- The `as_completed` collection loop of `find_relevant_docs_database`: each
`future.result()` re-raises any exception from its `similarity_search` call; otherwise
`relevant_page_content` and `metadata` are extended.  Completion order is
nondeterministic in the source; it is modelled in submission order, which affects only
the ordering of collected passages, not the raise/return behaviour. -/
def collect_search_results (query : String) (database_list : List (Option DatabaseClass))
    (num_of_docs_to_return : ℕ) : Except PyError (List String × List String) :=
  match database_list with
  | [] => .ok ([], [])
  | db :: rest =>
      match similarity_search query db num_of_docs_to_return with
      | .error e => .error e
      | .ok r =>
          match collect_search_results query rest num_of_docs_to_return with
          | .error e => .error e
          | .ok p => .ok (r.relevant_page_content ++ p.1, r.metadata ++ p.2)

/-- `find_relevant_docs_database(query, database_list, max_workers, num_of_docs_to_return)`:
one query, many stores; returns `[relevant_page_content_string, metadata]`. -/
def find_relevant_docs_database (query : String)
    (database_list : List (Option DatabaseClass)) (num_of_docs_to_return : ℕ) :
    Except PyError (String × List String) :=
  match collect_search_results query database_list num_of_docs_to_return with
  | .error e => .error e
  | .ok p => .ok (String.intercalate ", " p.1, p.2)

/-- The `as_completed` collection loop of `find_relevant_docs_query` (many queries, one
store), modelled in submission order like `collect_search_results`. -/
def collect_query_results (query_list : List String) (database : Option DatabaseClass)
    (num_of_docs_to_return : ℕ) : Except PyError (List String × List String) :=
  match query_list with
  | [] => .ok ([], [])
  | q :: rest =>
      match similarity_search q database num_of_docs_to_return with
      | .error e => .error e
      | .ok r =>
          match collect_query_results rest database num_of_docs_to_return with
          | .error e => .error e
          | .ok p => .ok (r.relevant_page_content ++ p.1, r.metadata ++ p.2)

/-- `list(dict.fromkeys(l))`: remove duplicates keeping the first occurrence. -/
def dict_fromkeys_list : List String → List String → List String
  | [], _ => []
  | s :: rest, seen =>
      if s ∈ seen then dict_fromkeys_list rest seen
      else s :: dict_fromkeys_list rest (s :: seen)

/-- `find_relevant_docs_query(query_list, database, max_workers, num_of_docs_to_return)`.
The body collects all per-query results, deduplicates `relevant_page_content` with
`list(dict.fromkeys(...))` and builds `relevant_page_content_string` — but the function
ends without a `return` statement, so Python returns `None` (modelled by `.ok none`);
only a raising `similarity_search` future escapes as an exception. -/
def find_relevant_docs_query (query_list : List String) (database : Option DatabaseClass)
    (num_of_docs_to_return : ℕ) :
    Except PyError (Option (List String × String)) :=
  match collect_query_results query_list database num_of_docs_to_return with
  | .error e => .error e
  | .ok p =>
      let relevant_page_content := dict_fromkeys_list p.1 []
      let relevant_page_content_string := String.intercalate ", " relevant_page_content
      .ok none

/-! ### Text chunking (modules/text_processing.py, `split_markdown_chunks`)

Python strings are modelled as `List Char` here, since the claim is about
character-level behaviour.  `splitter_pattern = r'^#+\s'` comes from modules/configs.py. -/

/-- Python's `\s` / `str.split()` whitespace (ASCII): space, tab, newline, carriage
return, vertical tab, form feed. -/
def pyIsSpace (c : Char) : Bool :=
  c == ' ' || c == '\t' || c == '\n' || c == '\r' || c == '\x0b' || c == '\x0c'

/-- Worker for Python `str.split()` with no arguments: split on runs of whitespace,
producing no empty pieces.  `acc` is the current word, reversed. -/
def py_split_ws_aux : List Char → List Char → List (List Char)
  | [], acc => if acc.isEmpty then [] else [acc.reverse]
  | c :: cs, acc =>
      if pyIsSpace c then
        if acc.isEmpty then py_split_ws_aux cs []
        else acc.reverse :: py_split_ws_aux cs []
      else py_split_ws_aux cs (c :: acc)

/-- Python `text.split()`. -/
def py_split_ws (text : List Char) : List (List Char) := py_split_ws_aux text []

/-- Python `sep.join(pieces)`. -/
def join_sep (sep : List Char) : List (List Char) → List Char
  | [] => []
  | [w] => w
  | w :: v :: ws => w ++ sep ++ join_sep sep (v :: ws)

/-- One attempted match of `#+\s` at a line-start position: a maximal run of at least one
`'#'` followed by one whitespace character (`\s` cannot match `'#'`, so greedy matching
with backtracking reduces to exactly this).  Returns the remainder after the match and
whether the matched whitespace was a newline (in which case the next position is again a
line start for `re.MULTILINE`'s `^`). -/
def match_heading (l : List Char) : Option (List Char × Bool) :=
  if l.takeWhile (· == '#') = [] then none
  else
    match l.dropWhile (· == '#') with
    | [] => none
    | r :: rs => if pyIsSpace r then some (rs, r == '\n') else none

/-- `re.split(splitter_pattern, markdown_document, flags=re.MULTILINE)` with
`splitter_pattern = r'^#+\s'`: scan left to right, cut the string at every line-start
heading marker, the matched marker itself removed from the output pieces.  `acc` is the
current piece (reversed); `at_line_start` tracks where `^` matches; `fuel` bounds the
recursion by the input length (every step consumes at least one character). -/
def re_split_heading_aux : ℕ → List Char → List Char → Bool → List (List Char)
  | _, [], acc, _ => [acc.reverse]
  | 0, l, acc, _ => [acc.reverse ++ l]
  | fuel + 1, c :: cs, acc, at_line_start =>
      if at_line_start && c == '#' then
        match match_heading (c :: cs) with
        | some (rest, was_newline) => acc.reverse :: re_split_heading_aux fuel rest [] was_newline
        | none => re_split_heading_aux fuel cs (c :: acc) false
      else
        re_split_heading_aux fuel cs (c :: acc) (c == '\n')

/-- `re.split(r'^#+\s', s, flags=re.MULTILINE)`. -/
def re_split_heading (s : List Char) : List (List Char) :=
  re_split_heading_aux s.length s [] true

/-- The `while chunk_start < len(words)` loop of `split_markdown_chunks`: cut `words`
into consecutive blocks of at most `max_words` words (`fuel` is the list length; the
source walks `chunk_start` forward by `max_words` each pass). -/
def chunk_words_aux (max_words : ℕ) : ℕ → List (List Char) → List (List (List Char))
  | 0, _ => []
  | _, [] => []
  | fuel + 1, w :: ws =>
      (w :: ws.take (max_words - 1)) :: chunk_words_aux max_words fuel (ws.drop (max_words - 1))

/-- The block-cutting loop at top level. -/
def chunk_words (max_words : ℕ) (words : List (List Char)) : List (List (List Char)) :=
  chunk_words_aux max_words words.length words

/-- The buffer update inside the `for chunk in chunks` loop of `split_markdown_chunks`:
`buffer += " " + chunk` when the buffer is nonempty (truthy), else `buffer = chunk`. -/
def grow_buffer (buffer chunk : List Char) : List Char :=
  if buffer.isEmpty then chunk else buffer ++ ' ' :: chunk

/-- The `for chunk in chunks` buffer pass of `split_markdown_chunks`: grow `buffer`, flush
it into `combined_chunks` once `len(buffer.split()) >= min_words`, and append any leftover
buffer at the end. -/
def combine_chunks (min_words : ℕ) : List (List Char) → List Char → List (List Char)
  | [], buffer => if buffer.isEmpty then [] else [buffer]
  | chunk :: rest, buffer =>
      if min_words ≤ (py_split_ws (grow_buffer buffer chunk)).length then
        grow_buffer buffer chunk :: combine_chunks min_words rest []
      else
        combine_chunks min_words rest (grow_buffer buffer chunk)

/-- The body of `for text in clean_texts` in `split_markdown_chunks`, acting on the
`final_chunks` accumulator: texts longer than `max_words` words are hard-split into
blocks of `max_words` joined by single spaces and then re-combined up to `min_words`;
shorter texts below `min_words` are merged into the previous final chunk when one
exists (`final_chunks.pop() + " " + text`), otherwise appended as they are. -/
def process_text (max_words min_words : ℕ) (final_chunks : List (List Char))
    (text : List Char) : List (List Char) :=
  let words := py_split_ws text
  if max_words < words.length then
    final_chunks ++ combine_chunks min_words ((chunk_words max_words words).map (join_sep [' '])) []
  else
    if 0 < min_words ∧ words.length < min_words ∧ final_chunks ≠ [] then
      final_chunks.dropLast ++ [final_chunks.getLastD [] ++ ' ' :: text]
    else
      final_chunks ++ [text]

/-- `split_markdown_chunks(markdown_document, max_words, min_words=100)`. -/
def split_markdown_chunks (markdown_document : List Char) (max_words : ℕ)
    (min_words : ℕ := 100) : List (List Char) :=
  (re_split_heading markdown_document).foldl (process_text max_words min_words) []

/-- Whitespace-normalization of a text: collapse all whitespace runs to single spaces
and trim (`' '.join(text.split())`). -/
def normalize_ws (text : List Char) : List Char := join_sep [' '] (py_split_ws text)

/-- Reassembling chunks in order, one whitespace (a single space) between consecutive
chunks. -/
def reassemble (chunks : List (List Char)) : List Char := join_sep [' '] chunks

/-! ## Concrete inputs used by counterexamples and witnesses -/

/-- A document that starts with a markdown heading marker. -/
def exampleHeadingDoc : List Char := ['#', ' ', 'A', ' ', 'b']

/-- A document without any heading marker. -/
def examplePlainDoc : List Char := ['h', 'e', 'l', 'l', 'o', ' ', 'w', 'o', 'r', 'l', 'd']

/-- A small healthy store (one document, abstract ranking). -/
def exampleStore : FaissStore := ⟨[⟨"p", "w"⟩], fun _ _ => [⟨"p", "w"⟩]⟩

/-- A healthy `Database` object wrapping `exampleStore`. -/
def exampleDatabase : DatabaseClass := ⟨some exampleStore, "w"⟩

/-- A store holding four matching documents whose ranking returns the best `k`. -/
def exampleStore4 : FaissStore :=
  ⟨[⟨"p1", "w"⟩, ⟨"p2", "w"⟩, ⟨"p3", "w"⟩, ⟨"p4", "w"⟩],
   fun _ k => ([⟨"p1", "w"⟩, ⟨"p2", "w"⟩, ⟨"p3", "w"⟩, ⟨"p4", "w"⟩] : List Document).take k⟩

/-- A healthy `Database` object wrapping `exampleStore4`. -/
def exampleDatabase4 : DatabaseClass := ⟨some exampleStore4, "w"⟩

/-- Two stores for the same source identifier `'w1'` with different documents. -/
def exampleDbA : DatabaseClass := ⟨some ⟨[⟨"a", "w1"⟩], fun _ _ => []⟩, "w1"⟩

/-- Second store with duplicate source identifier `'w1'`. -/
def exampleDbB : DatabaseClass := ⟨some ⟨[⟨"b", "w1"⟩], fun _ _ => []⟩, "w1"⟩

/-- A nested per-scene record list holding both duplicate stores. -/
def exampleNested : List (List QueryRecord) := [[⟨"q", [some exampleDbA, some exampleDbB]⟩]]

/-- Attempt oracle of the spec's `acquire(3)` scenario: allocation 1 fails its first two
attempts and succeeds on the third; allocations 0 and 2 succeed immediately. -/
def exampleOutcomes : ℕ → ℕ → Bool := fun i k => if i = 1 then decide (2 ≤ k) else true

/-! ## Theorems -/

/-! ### C10: audio truncation bounds playback sleep -/

/-- C10.  For every scene and script (arbitrary TTS part lengths), `generate_audio_handler`
truncates the combined audio to its first 60 seconds (`combined_audio[:60000]`) before
exporting, so the returned `duration_seconds` never exceeds 60 and the wall-clock sleep
`play_audio` performs is at most 60 seconds. -/
theorem audio_truncation_bound :
    ∀ (tts_part1 tts_part2 : AudioSegment) (file_name : String),
      (generate_audio_handler tts_part1 tts_part2 file_name).duration_seconds ≤ 60 ∧
      play_audio_sleep_seconds (generate_audio_handler tts_part1 tts_part2 file_name) ≤ 60 := by
  intro p1 p2 file_name
  have h1 : min (generate_empty_audio.ms + p1.ms + p2.ms) 60000 ≤ 60000 := Nat.min_le_right _ _
  have h2 : ((min (generate_empty_audio.ms + p1.ms + p2.ms) 60000 : ℕ) : ℚ) ≤ 60000 := by
    exact_mod_cast h1
  have h : ((min (generate_empty_audio.ms + p1.ms + p2.ms) 60000 : ℕ) : ℚ) / 1000 ≤ 60 := by
    linarith
  exact ⟨h, h⟩

/-! ### C9: the CSE call counter is not actually reset per cycle -/

/-- C9 (code bug).  `generate_livestream` calls `reset_global_variables()` at the start of
every generation phase, but that function assigns the `modules.utils` binding of
`cse_api_call_count`, while `google_search` increments the separate `modules.web_scraper`
binding.  After one cycle with a single search call, the reset at the next cycle's start
leaves the counter `google_search` observes at 1, and its next call observes 2 —
cumulative across cycles, contradicting the claim that each cycle starts from zero. -/
theorem cse_counter_not_reset :
    (reset_global_variables (generation_phase 1 importTimeBindings)).scraper_count = 1 ∧
    (google_search_count (reset_global_variables (generation_phase 1 importTimeBindings))).2 = 2 ∧
    (reset_global_variables (generation_phase 1 importTimeBindings)).utils_count = 0 :=
  ⟨rfl, rfl, rfl⟩

/-! ### C2: cycle structure of `collections_handler` -/

/-- Helper: a block of loop iterations that never hits the final-iteration branch
contributes one `playBatch` per iteration. -/
theorem flatMap_loop_no_final (A : List CycleEvent) :
    ∀ (l : List ℕ) (c : ℕ), (∀ i ∈ l, i ≠ c) →
      (l.flatMap (fun i => if i = c then A else [CycleEvent.playBatch])) =
        List.replicate l.length CycleEvent.playBatch := by
  intro l
  induction l with
  | nil => intro c h; rfl
  | cons x xs ih =>
      intro c h
      have hx : x ≠ c := h x (List.mem_cons_self x xs)
      simp only [List.flatMap_cons, if_neg hx, List.length_cons, List.replicate_succ]
      rw [ih c (fun i hi => h i (List.mem_cons_of_mem x hi))]
      rfl

/-- C2.  For every cycle with at least one configured iteration, the trace of
`collections_handler` is exactly: the full batch played `total_collection_iterations`
times, then the next-batch generation task starts, the final replay runs between that
start and the join of both tasks, and only after the join does the recursive call for the
next cycle begin. -/
theorem cycle_structure :
    ∀ total_collection_iterations : ℕ, 1 ≤ total_collection_iterations →
      collections_handler_trace total_collection_iterations =
        List.replicate total_collection_iterations CycleEvent.playBatch ++
          [CycleEvent.genStart, CycleEvent.playBatch, CycleEvent.joinBoth,
           CycleEvent.recurseCall] := by
  intro N hN
  obtain ⟨M, rfl⟩ : ∃ M, N = M + 1 := ⟨N - 1, by omega⟩
  unfold collections_handler_trace
  rw [List.range_succ, List.flatMap_append]
  have hM : (M + 1) - 1 = M := by omega
  rw [flatMap_loop_no_final _ (List.range M) ((M + 1) - 1)
        (fun i hi => by rw [hM]; exact Nat.ne_of_lt (List.mem_range.mp hi))]
  simp [hM, List.replicate_succ]

/-- Witness for C2 at `total_collection_iterations = 2`. -/
theorem cycle_structure_witness :
    collections_handler_trace 2 =
      List.replicate 2 CycleEvent.playBatch ++
        [CycleEvent.genStart, CycleEvent.playBatch, CycleEvent.joinBoth,
         CycleEvent.recurseCall] :=
  cycle_structure 2 (by decide)

/-! ### C8: all-or-nothing worker acquisition with bounded retry -/

/-- Helper: the retry loop makes at most `fuel` attempts. -/
theorem alloc_loop_attempts_le (outcome : ℕ → Bool) :
    ∀ (fuel retry_count : ℕ),
      (initialize_chrome_driver_loop outcome retry_count fuel).attempts ≤ fuel := by
  intro fuel
  induction fuel with
  | zero => intro r; exact Nat.le_refl 0
  | succ f ih =>
      intro r
      by_cases h : outcome r
      · simp [initialize_chrome_driver_loop, h]
      · simp only [initialize_chrome_driver_loop, h, if_false, Bool.false_eq_true]
        exact Nat.succ_le_succ (ih (r + 1))

/-- Helper: every failed attempt is followed by exactly one 1-second sleep. -/
theorem alloc_loop_sleep_of_ok (outcome : ℕ → Bool) :
    ∀ (fuel retry_count : ℕ),
      (initialize_chrome_driver_loop outcome retry_count fuel).result = .ok () →
      (initialize_chrome_driver_loop outcome retry_count fuel).sleep_seconds + 1 =
        (initialize_chrome_driver_loop outcome retry_count fuel).attempts := by
  intro fuel
  induction fuel with
  | zero => intro r h; exact absurd h (by simp [initialize_chrome_driver_loop])
  | succ f ih =>
      intro r h
      by_cases ho : outcome r
      · simp [initialize_chrome_driver_loop, ho]
      · simp only [initialize_chrome_driver_loop, ho, if_false, Bool.false_eq_true] at h ⊢
        have := ih (r + 1) h
        omega

/-- Helper: when the loop fails, it made exactly `fuel` attempts, slept `fuel` seconds,
and raised the `RuntimeError`. -/
theorem alloc_loop_exhausted (outcome : ℕ → Bool) :
    ∀ (fuel retry_count : ℕ),
      (initialize_chrome_driver_loop outcome retry_count fuel).result ≠ .ok () →
      (initialize_chrome_driver_loop outcome retry_count fuel).attempts = fuel ∧
      (initialize_chrome_driver_loop outcome retry_count fuel).sleep_seconds = fuel ∧
      (initialize_chrome_driver_loop outcome retry_count fuel).result =
        .error (.runtimeError "Failed to initialize ChromeDriver after several attempts") := by
  intro fuel
  induction fuel with
  | zero => intro r _; exact ⟨rfl, rfl, rfl⟩
  | succ f ih =>
      intro r h
      by_cases ho : outcome r
      · exact absurd (by simp [initialize_chrome_driver_loop, ho]) h
      · simp only [initialize_chrome_driver_loop, ho, if_false, Bool.false_eq_true] at h ⊢
        have := ih (r + 1) h
        exact ⟨by omega, by omega, this.2.2⟩

/-- Helper: `asyncio.gather` returns one driver per allocation when all succeed. -/
theorem gather_results_ok_length :
    ∀ (rs : List AllocRun) (l : List Unit), gather_results rs = .ok l → l.length = rs.length := by
  intro rs
  induction rs with
  | nil => intro l h; cases h; rfl
  | cons r rest ih =>
      intro l h
      unfold gather_results at h
      cases hr : r.result with
      | error e => rw [hr] at h; cases h
      | ok u =>
          rw [hr] at h
          cases hg : gather_results rest with
          | error e => rw [hg] at h; cases h
          | ok l2 => rw [hg] at h; cases h; simp [ih l2 hg]

/-- Helper: if any allocation raised, the whole gather raises. -/
theorem gather_results_error_of_mem :
    ∀ (rs : List AllocRun), (∃ r ∈ rs, r.result ≠ .ok ()) →
      ∃ e, gather_results rs = .error e := by
  intro rs
  induction rs with
  | nil => rintro ⟨r, hr, _⟩; cases hr
  | cons r rest ih =>
      rintro ⟨s, hs, hres⟩
      unfold gather_results
      rcases List.mem_cons.mp hs with rfl | hs2
      · cases hr : s.result with
        | error e => exact ⟨e, rfl⟩
        | ok u => cases u; exact absurd hr hres
      · cases hr : r.result with
        | error e => exact ⟨e, rfl⟩
        | ok u =>
            obtain ⟨e, he⟩ := ih ⟨s, hs2, hres⟩
            exact ⟨e, by rw [he]⟩

/-- C8.  `create_drivers(n)` either returns exactly `n` usable workers or the whole call
fails: each individual allocation retries initialization at most 10 times with a fixed
1-second delay between attempts; an allocation that exhausts the bound raises
`RuntimeError` (after 10 attempts and 10 seconds of delays), and any failed allocation
makes `create_drivers` itself propagate an error rather than return a smaller pool. -/
theorem create_drivers_all_or_nothing :
    ∀ (outcomes : ℕ → ℕ → Bool) (num_of_drivers : ℕ),
      (∀ l, create_drivers outcomes num_of_drivers = .ok l → l.length = num_of_drivers) ∧
      (∀ i, (initialize_chrome_driver (outcomes i)).attempts ≤ 10 ∧
        ((initialize_chrome_driver (outcomes i)).result = .ok () →
          (initialize_chrome_driver (outcomes i)).sleep_seconds + 1 =
            (initialize_chrome_driver (outcomes i)).attempts) ∧
        ((initialize_chrome_driver (outcomes i)).result ≠ .ok () →
          (initialize_chrome_driver (outcomes i)).attempts = 10 ∧
          (initialize_chrome_driver (outcomes i)).sleep_seconds = 10 ∧
          (initialize_chrome_driver (outcomes i)).result =
            .error (.runtimeError "Failed to initialize ChromeDriver after several attempts"))) ∧
      ((∃ i, i < num_of_drivers ∧ (initialize_chrome_driver (outcomes i)).result ≠ .ok ()) →
        ∃ e, create_drivers outcomes num_of_drivers = .error e) := by
  intro outcomes n
  refine ⟨?_, ?_, ?_⟩
  · intro l h
    have := gather_results_ok_length _ l h
    simpa [create_drivers_runs] using this
  · intro i
    exact ⟨alloc_loop_attempts_le _ 10 0, alloc_loop_sleep_of_ok _ 10 0,
      alloc_loop_exhausted _ 10 0⟩
  · rintro ⟨i, hi, hres⟩
    apply gather_results_error_of_mem
    exact ⟨initialize_chrome_driver (outcomes i),
      List.mem_map.mpr ⟨i, List.mem_range.mpr hi, rfl⟩, hres⟩

/-- Witness for C8: the spec's `acquire(3)` scenario (one allocation fails its first two
attempts and then succeeds) yields exactly 3 workers, and a pool whose allocations all
fail propagates an error. -/
theorem create_drivers_all_or_nothing_witness :
    (∃ l, create_drivers exampleOutcomes 3 = .ok l ∧ l.length = 3) ∧
    (∃ e, create_drivers (fun _ _ => false) 2 = .error e) := by
  constructor
  · exact ⟨[(), (), ()], rfl, (create_drivers_all_or_nothing exampleOutcomes 3).1 _ rfl⟩
  · apply (create_drivers_all_or_nothing (fun _ _ => false) 2).2.2
    refine ⟨0, by decide, fun hc => ?_⟩
    rw [show (initialize_chrome_driver (fun _ => false)).result =
          .error (.runtimeError "Failed to initialize ChromeDriver after several attempts")
        from rfl] at hc
    cases hc

/-! ### C1: playback serialization -/

/-- Helper: `process_one_scene` always awaits the previous playback task to completion
before the next scene's `play_audio` task is created, in every branch of the source. -/
theorem process_one_scene_awaits_previous :
    ∀ (now : ℕ) (p : PlayInterval) (sc : SceneTiming),
      p.finish ≤ (process_one_scene now (some p) sc).1.start := by
  intro now p sc
  unfold process_one_scene
  cases h : sc.youtubeMs with
  | some yt => simp only []; omega
  | none => simp only []; omega

/-- C1.  For every sequence of scenes, every starting clock and every initially playing
task, the playback intervals produced by the scheduler form a serial chain: scene `i`'s
playback ends at or before scene `i+1`'s playback starts (and the initial task, when
present, ends at or before the first new playback starts) — at most one playback task is
in flight at any time. -/
theorem playback_serialization :
    ∀ (scenes : List SceneTiming) (now : ℕ) (initial_previous_task : Option PlayInterval),
      List.Chain' (fun a b => a.finish ≤ b.start)
        (initial_previous_task.toList ++ (scene_handler now initial_previous_task scenes).1) := by
  intro scenes
  induction scenes with
  | nil => intro now prev; cases prev <;> simp [scene_handler]
  | cons sc rest ih =>
      intro now prev
      have htail := ih (process_one_scene now prev sc).2 (some (process_one_scene now prev sc).1)
      simp only [Option.toList_some, List.singleton_append] at htail
      cases prev with
      | none => simpa [scene_handler] using htail
      | some p =>
          simp only [scene_handler, Option.toList_some, List.singleton_append]
          exact List.Chain'.cons (process_one_scene_awaits_previous now p sc) htail

/-! ### C3: fallback and worker disposal protocol -/

/-- C3.  For every slot: (i) the event trace contains exactly one disposal per fetch
attempt; (ii) no single worker is ever disposed more than once; (iii) when the primary
attempt yields no usable text and a backup URL exists, the incoming worker is disposed
unconditionally, exactly one fresh worker is created and used for the backup attempt, the
slot's result equals the backup attempt's result (processed the same way a successful
primary would be), and the fresh worker is disposed when the slot finishes even when the
backup attempt itself throws. -/
theorem slot_fallback_disposal :
    ∀ (d0 : ℕ) (primary : FetchOutcome) (backup_url : Bool) (backup : FetchOutcome)
      (process_to_db : Bool),
      ((fetch_and_process_slot d0 primary backup_url backup process_to_db).2.countP
          SlotEvent.isDispose =
        (fetch_and_process_slot d0 primary backup_url backup process_to_db).2.countP
          SlotEvent.isAttempt) ∧
      (∀ d, (fetch_and_process_slot d0 primary backup_url backup process_to_db).2.count
          (SlotEvent.dispose d) ≤ 1) ∧
      (∀ clean_texts, primary = .ok clean_texts → truthyTexts clean_texts = false →
        backup_url = true →
        fetch_and_process_slot d0 primary backup_url backup process_to_db =
          ((match backup with
            | .error e => .error e
            | .ok clean_texts2 => .ok (finish_slot clean_texts2 true process_to_db)),
           [.fetchAttempt d0, .dispose d0, .fetchAttempt (d0 + 1), .dispose (d0 + 1)])) := by
  intro d0 primary backup_url backup process_to_db
  cases primary with
  | error e =>
      refine ⟨rfl, ?_, ?_⟩
      · intro d
        simp only [fetch_and_process_slot, List.count_cons, List.count_nil]
        split <;> split <;> simp_all
      · intro ct h; cases h
  | ok clean_texts =>
      by_cases hcond : (!truthyTexts clean_texts && backup_url) = true
      · cases backup with
        | error e =>
            refine ⟨?_, ?_, ?_⟩
            · simp [fetch_and_process_slot, hcond, List.countP_cons, SlotEvent.isDispose,
                SlotEvent.isAttempt]
            · intro d
              simp only [fetch_and_process_slot, hcond, if_true, List.count_cons,
                List.count_nil]
              split <;> split <;> split <;> split <;> simp_all
            · intro ct h ht hb
              cases h
              simp [fetch_and_process_slot, ht, hb]
        | ok clean_texts2 =>
            refine ⟨?_, ?_, ?_⟩
            · simp [fetch_and_process_slot, hcond, List.countP_cons, SlotEvent.isDispose,
                SlotEvent.isAttempt]
            · intro d
              simp only [fetch_and_process_slot, hcond, if_true, List.count_cons,
                List.count_nil]
              split <;> split <;> split <;> split <;> simp_all
            · intro ct h ht hb
              cases h
              simp [fetch_and_process_slot, ht, hb]
      · refine ⟨?_, ?_, ?_⟩
        · simp [fetch_and_process_slot, hcond, List.countP_cons, SlotEvent.isDispose,
            SlotEvent.isAttempt]
        · intro d
          simp only [fetch_and_process_slot, hcond, if_false, Bool.false_eq_true,
            List.count_cons, List.count_nil]
          split <;> split <;> simp_all
        · intro ct h ht hb
          cases h
          rw [ht, hb] at hcond
          simp at hcond

/-- Witness for C3: a slot whose primary yields no text falls back to the backup,
returning the backup's database and disposing each of the two workers exactly once. -/
theorem slot_fallback_disposal_witness :
    fetch_and_process_slot 7 (.ok none) true (.ok (some ["t"])) true =
      (.ok (some (.db ["t"] true)),
       [.fetchAttempt 7, .dispose 7, .fetchAttempt 8, .dispose 8]) := by
  have h := (slot_fallback_disposal 7 (.ok none) true (.ok (some ["t"])) true).2.2 none rfl rfl rfl
  simpa [finish_slot] using h

/-! ### C4: empty-slot degradation breaks downstream (code bug) -/

/-- C4 (code bug).  A slot whose primary fetch yields no text and which has no backup URL
does return an empty contribution without raising (first conjunct) — but downstream scene
assembly does not survive it: the `None` contribution reaches `similarity_search`, whose
`database = database.database` attribute access runs *before* its `if database is None`
sentinel check, so it raises `AttributeError` and `find_relevant_docs_database` aborts
instead of completing from the other slots' contributions. -/
theorem failed_slot_breaks_downstream :
    fetch_and_process_slot 0 (.ok none) false (.ok none) true =
      (.ok none, [.fetchAttempt 0, .dispose 0]) ∧
    similarity_search "storm" none 2 = .error .attributeError ∧
    find_relevant_docs_database "storm" [some exampleDatabase, none] 2 =
      .error .attributeError :=
  ⟨rfl, rfl, rfl⟩

/-! ### C5: merge deduplication keeps the first-seen store per source -/

/-- Helper: on a flattened list with no `None` entries the dedup loop succeeds and equals
its pure version. -/
theorem unique_from_flat_of_some :
    ∀ (l : List DatabaseClass) (seen : List String),
      unique_from_flat (l.map some) seen = .ok (unique_databases_loop l seen) := by
  intro l
  induction l with
  | nil => intro seen; rfl
  | cons db rest ih =>
      intro seen
      by_cases h : db.metadata ∈ seen
      · simp only [List.map_cons, unique_from_flat, unique_databases_loop, if_pos h]
        exact ih seen
      · simp only [List.map_cons, unique_from_flat, unique_databases_loop, if_neg h]
        rw [ih (db.metadata :: seen)]

/-- Helper: characterization of the dedup loop — for every source identifier `w`, the kept
stores with identifier `w` are exactly the first store of the input carrying `w` (none if
`w` was already seen). -/
theorem unique_loop_filter_find :
    ∀ (l : List DatabaseClass) (seen : List String) (w : String),
      (w ∈ seen →
        (unique_databases_loop l seen).filter (fun db => db.metadata == w) = []) ∧
      (w ∉ seen →
        (unique_databases_loop l seen).filter (fun db => db.metadata == w) =
          (l.find? (fun db => db.metadata == w)).toList) := by
  intro l
  induction l with
  | nil => intro seen w; exact ⟨fun _ => rfl, fun _ => rfl⟩
  | cons db rest ih =>
      intro seen w
      by_cases hm : db.metadata ∈ seen
      · constructor
        · intro hw
          simp only [unique_databases_loop, if_pos hm]
          exact (ih seen w).1 hw
        · intro hw
          have hdw : ¬(db.metadata = w) := fun he => hw (he ▸ hm)
          have hbf : (db.metadata == w) = false := beq_eq_false_iff_ne.mpr hdw
          simp only [unique_databases_loop, if_pos hm, List.find?_cons, hbf]
          exact (ih seen w).2 hw
      · constructor
        · intro hw
          have hdw : ¬(db.metadata = w) := fun he => hm (he ▸ hw)
          have hbf : (db.metadata == w) = false := beq_eq_false_iff_ne.mpr hdw
          simp only [unique_databases_loop, if_neg hm, List.filter_cons, hbf,
            Bool.false_eq_true, if_false]
          exact (ih (db.metadata :: seen) w).1 (List.mem_cons_of_mem _ hw)
        · intro hw
          by_cases hdw : db.metadata = w
          · have hbt : (db.metadata == w) = true := beq_iff_eq.mpr hdw
            simp only [unique_databases_loop, if_neg hm, List.filter_cons,
              List.find?_cons, hbt, if_true]
            rw [(ih (db.metadata :: seen) w).1 (hdw ▸ List.mem_cons_self _ _)]
            rfl
          · have hbf : (db.metadata == w) = false := beq_eq_false_iff_ne.mpr hdw
            simp only [unique_databases_loop, if_neg hm, List.filter_cons,
              List.find?_cons, hbf, Bool.false_eq_true, if_false]
            exact (ih (db.metadata :: seen) w).2
              (fun hc => (List.mem_cons.mp hc).elim (fun he => hdw he.symm) hw)

/-- Helper: every store kept by the dedup loop comes from its input. -/
theorem unique_loop_subset :
    ∀ (l : List DatabaseClass) (seen : List String),
      ∀ db ∈ unique_databases_loop l seen, db ∈ l := by
  intro l
  induction l with
  | nil => intro seen db h; cases h
  | cons d rest ih =>
      intro seen db h
      by_cases hm : d.metadata ∈ seen
      · simp only [unique_databases_loop, if_pos hm] at h
        exact List.mem_cons_of_mem _ (ih seen db h)
      · simp only [unique_databases_loop, if_neg hm] at h
        rcases List.mem_cons.mp h with rfl | h2
        · exact List.mem_cons_self _ _
        · exact List.mem_cons_of_mem _ (ih _ db h2)

/-- Helper: when every unique store has a real index, merging collects the concatenation
of all their docstores. -/
theorem collect_all_documents_of_some :
    ∀ (u : List DatabaseClass), (∀ db ∈ u, db.database.isSome = true) →
      collect_all_documents u =
        .ok ((u.map (fun db => (db.database.map FaissStore.docstore).getD [])).flatten) := by
  intro u
  induction u with
  | nil => intro _; rfl
  | cons db rest ih =>
      intro h
      obtain ⟨st, hst⟩ := Option.isSome_iff_exists.mp (h db (List.mem_cons_self _ _))
      simp only [collect_all_documents, hst]
      rw [ih (fun d hd => h d (List.mem_cons_of_mem _ hd))]
      simp [hst]

/-- C5.  For every nested per-scene list of Stores (possibly with several Stores carrying
the same source identifier in the metadata `'website'` key) whose entries are genuine
Stores with built indexes: deduplication keeps exactly the first-encountered Store per
source identifier, and the merged Collection-Wide Store is one brand-new index
(`FAISS.from_documents`) over the concatenation of the document sets of exactly those
first-seen unique Stores, with metadata `'Not used'`. -/
theorem merge_dedup_first_seen :
    ∀ (faiss_rank : List Document → String → ℕ → List Document)
      (database_list : List (List QueryRecord)) (flat : List DatabaseClass),
      flatten_database_list database_list = flat.map some →
      (∀ db ∈ flat, db.database.isSome = true) →
      ∃ unique_databases,
        create_unique_databases database_list = .ok unique_databases ∧
        (∀ w, unique_databases.filter (fun db => db.metadata == w) =
            (flat.find? (fun db => db.metadata == w)).toList) ∧
        create_merged_database faiss_rank unique_databases =
          .ok ⟨some (FAISS_from_documents faiss_rank
              ((unique_databases.map
                  (fun db => (db.database.map FaissStore.docstore).getD [])).flatten)),
            "Not used"⟩ := by
  intro faiss_rank database_list flat hflat hsome
  refine ⟨unique_databases_loop flat [], ?_, ?_, ?_⟩
  · unfold create_unique_databases
    rw [hflat, unique_from_flat_of_some]
  · intro w
    exact (unique_loop_filter_find flat [] w).2 (List.not_mem_nil w)
  · unfold create_merged_database
    rw [collect_all_documents_of_some _
      (fun db hdb => hsome db (unique_loop_subset flat [] db hdb))]

/-- Witness for C5: two Stores for the same source `'w1'` — the merge keeps the first and
builds the collection-wide index over its documents only. -/
theorem merge_dedup_first_seen_witness :
    ∃ unique_databases,
      create_unique_databases exampleNested = .ok unique_databases ∧
      (∀ w, unique_databases.filter (fun db => db.metadata == w) =
          (([exampleDbA, exampleDbB].find? (fun db => db.metadata == w))).toList) ∧
      create_merged_database (fun _ _ _ => []) unique_databases =
        .ok ⟨some (FAISS_from_documents (fun _ _ _ => [])
            ((unique_databases.map
                (fun db => (db.database.map FaissStore.docstore).getD [])).flatten)),
          "Not used"⟩ := by
  apply merge_dedup_first_seen (fun _ _ _ => []) exampleNested [exampleDbA, exampleDbB] rfl
  intro db hdb
  rcases List.mem_cons.mp hdb with rfl | h2
  · rfl
  · rcases List.mem_singleton.mp h2 with rfl
    rfl

/-! ### C6: `find_relevant_docs_query` never returns its Query Result (code bug) -/

/-- C6 (code bug).  `find_relevant_docs_query` computes the deduplicated per-query
passages and the joined result string, but its body ends without a `return` statement, so
the call `query_many(["a","b"], store, k=2)` against a store with 4 matching documents
returns Python `None` instead of a Query Result. -/
theorem find_relevant_docs_query_returns_none :
    find_relevant_docs_query ["a", "b"] (some exampleDatabase4) 2 = .ok none := rfl

/-! ### C7: chunking round-trip -/

/-- Helper: Python `split()` distributes over an inserted whitespace character. -/
theorem py_split_ws_aux_append_space {w : Char} (hw : pyIsSpace w = true) :
    ∀ (a b acc : List Char),
      py_split_ws_aux (a ++ w :: b) acc = py_split_ws_aux a acc ++ py_split_ws_aux b [] := by
  intro a
  induction a with
  | nil =>
      intro b acc
      by_cases h : acc.isEmpty = true
      · simp [py_split_ws_aux, hw, h]
      · simp [py_split_ws_aux, hw, h]
  | cons c a ih =>
      intro b acc
      by_cases hc : pyIsSpace c = true
      · by_cases h : acc.isEmpty = true
        · simpa [py_split_ws_aux, hc, h] using ih b []
        · simpa [py_split_ws_aux, hc, h] using ih b []
      · simpa [py_split_ws_aux, hc] using ih b (c :: acc)

/-- Helper: a whitespace-free nonempty run is one single word. -/
theorem py_split_ws_aux_no_space :
    ∀ (t acc : List Char), (∀ c ∈ t, pyIsSpace c = false) → (acc.isEmpty = true → t ≠ []) →
      py_split_ws_aux t acc = [acc.reverse ++ t] := by
  intro t
  induction t with
  | nil =>
      intro acc h hne
      have hf : acc.isEmpty = false := by
        cases he : acc.isEmpty
        · rfl
        · exact absurd rfl (hne he)
      simp [py_split_ws_aux, hf]
  | cons c t ih =>
      intro acc h hne
      have hc : pyIsSpace c = false := h c (List.mem_cons_self _ _)
      have hrec := ih (c :: acc) (fun x hx => h x (List.mem_cons_of_mem _ hx)) (by simp)
      simp [py_split_ws_aux, hc, hrec]

/-- Helper: Python `split()` of one whitespace-free nonempty word is that word. -/
theorem py_split_ws_single_word :
    ∀ (w : List Char), w ≠ [] → (∀ c ∈ w, pyIsSpace c = false) → py_split_ws w = [w] := by
  intro w hne h
  simpa [py_split_ws] using py_split_ws_aux_no_space w [] h (fun _ => hne)

/-- Helper: every word produced by Python `split()` is nonempty and whitespace-free. -/
theorem py_split_ws_aux_clean :
    ∀ (t acc : List Char), (∀ c ∈ acc, pyIsSpace c = false) →
      ∀ w ∈ py_split_ws_aux t acc, w ≠ [] ∧ ∀ c ∈ w, pyIsSpace c = false := by
  intro t
  induction t with
  | nil =>
      intro acc hacc w hw
      by_cases h : acc.isEmpty = true
      · simp [py_split_ws_aux, h] at hw
      · simp only [py_split_ws_aux, h, if_false, Bool.false_eq_true,
          List.mem_singleton] at hw
        subst hw
        refine ⟨?_, ?_⟩
        · have : acc ≠ [] := fun he => h (by simp [he])
          simpa using this
        · intro c hc
          exact hacc c (List.mem_reverse.mp hc)
  | cons c t ih =>
      intro acc hacc w hw
      by_cases hc : pyIsSpace c = true
      · by_cases h : acc.isEmpty = true
        · simp only [py_split_ws_aux, hc, if_true, h] at hw
          exact ih [] (by intro x hx; cases hx) w hw
        · simp only [py_split_ws_aux, hc, if_true, h, if_false, Bool.false_eq_true,
            List.mem_cons] at hw
          rcases hw with rfl | hw2
          · refine ⟨?_, ?_⟩
            · have : acc ≠ [] := fun he => h (by simp [he])
              simpa using this
            · intro x hx
              exact hacc x (List.mem_reverse.mp hx)
          · exact ih [] (by intro x hx; cases hx) w hw2
      · have hcf : pyIsSpace c = false := by simpa using hc
        simp only [py_split_ws_aux, hcf, if_false, Bool.false_eq_true] at hw
        refine ih (c :: acc) ?_ w hw
        intro x hx
        rcases List.mem_cons.mp hx with rfl | hx2
        · exact hcf
        · exact hacc x hx2

/-- Helper: words of any text are nonempty and whitespace-free. -/
theorem py_split_ws_clean :
    ∀ (s : List Char), ∀ w ∈ py_split_ws s, w ≠ [] ∧ ∀ c ∈ w, pyIsSpace c = false :=
  fun s => py_split_ws_aux_clean s [] (by intro c hc; cases hc)

/-- Helper: Python `split()` after a single-space join collects the words piecewise. -/
theorem py_split_ws_join_sep_space :
    ∀ (l : List (List Char)),
      py_split_ws (join_sep [' '] l) = (l.map py_split_ws).flatten := by
  intro l
  induction l with
  | nil => rfl
  | cons w ws ih =>
      cases ws with
      | nil => simp [join_sep]
      | cons v vs =>
          show py_split_ws (w ++ [' '] ++ join_sep [' '] (v :: vs)) = _
          rw [show w ++ [' '] ++ join_sep [' '] (v :: vs) =
                w ++ ' ' :: join_sep [' '] (v :: vs) by simp]
          rw [show py_split_ws (w ++ ' ' :: join_sep [' '] (v :: vs)) =
                py_split_ws w ++ py_split_ws (join_sep [' '] (v :: vs)) from
              py_split_ws_aux_append_space (w := ' ') rfl w (join_sep [' '] (v :: vs)) []]
          rw [ih]
          simp

/-- Helper: flattening singleton lists is the identity. -/
theorem flatten_map_singleton :
    ∀ (ws : List (List Char)), (ws.map (fun w => [w])).flatten = ws := by
  intro ws
  induction ws with
  | nil => rfl
  | cons w ws ih => simp [ih]

/-- Helper: single-space joining a list of nonempty whitespace-free words round-trips
through Python `split()`. -/
theorem words_of_clean_list :
    ∀ (ws : List (List Char)),
      (∀ w ∈ ws, w ≠ [] ∧ ∀ c ∈ w, pyIsSpace c = false) →
      py_split_ws (join_sep [' '] ws) = ws := by
  intro ws h
  rw [py_split_ws_join_sep_space]
  rw [List.map_congr_left (fun w hw => py_split_ws_single_word w (h w hw).1 (h w hw).2)]
  exact flatten_map_singleton ws

/-- Helper: the hard word-count cutting loop loses no words and keeps their order. -/
theorem chunk_words_aux_flatten :
    ∀ (max_words fuel : ℕ) (ws : List (List Char)), ws.length ≤ fuel →
      (chunk_words_aux max_words fuel ws).flatten = ws := by
  intro mw fuel
  induction fuel with
  | zero =>
      intro ws h
      have : ws = [] := List.eq_nil_of_length_eq_zero (Nat.le_zero.mp h)
      subst this; rfl
  | succ f ih =>
      intro ws h
      cases ws with
      | nil => rfl
      | cons w ws =>
          have hlen : (ws.drop (mw - 1)).length ≤ f := by
            simp only [List.length_cons] at h
            simp only [List.length_drop]
            omega
          simp only [chunk_words_aux, List.flatten_cons]
          rw [ih _ hlen]
          simp [List.take_append_drop]

/-- Helper: `(chunk_words max_words ws).flatten = ws`. -/
theorem chunk_words_flatten (max_words : ℕ) (ws : List (List Char)) :
    (chunk_words max_words ws).flatten = ws :=
  chunk_words_aux_flatten max_words ws.length ws (le_refl _)

/-- Helper: growing the buffer concatenates the word sequences. -/
theorem grow_buffer_words :
    ∀ (buffer chunk : List Char),
      py_split_ws (grow_buffer buffer chunk) = py_split_ws buffer ++ py_split_ws chunk := by
  intro buffer chunk
  by_cases h : buffer.isEmpty = true
  · have hb : buffer = [] := by simpa using h
    subst hb
    simp [grow_buffer, py_split_ws, py_split_ws_aux]
  · simp only [grow_buffer, h, if_false, Bool.false_eq_true]
    exact py_split_ws_aux_append_space (w := ' ') rfl buffer chunk []

/-- Helper: the buffer re-combination pass loses no words and keeps their order. -/
theorem combine_chunks_words :
    ∀ (min_words : ℕ) (cs : List (List Char)) (buffer : List Char),
      ((combine_chunks min_words cs buffer).map py_split_ws).flatten =
        py_split_ws buffer ++ (cs.map py_split_ws).flatten := by
  intro mw cs
  induction cs with
  | nil =>
      intro buffer
      by_cases h : buffer.isEmpty = true
      · have hb : buffer = [] := by simpa using h
        subst hb; rfl
      · simp [combine_chunks, h]
  | cons chunk rest ih =>
      intro buffer
      by_cases hf : mw ≤ (py_split_ws (grow_buffer buffer chunk)).length
      · simp only [combine_chunks, if_pos hf, List.map_cons, List.flatten_cons]
        rw [ih [], grow_buffer_words]
        simp [py_split_ws, py_split_ws_aux, List.append_assoc]
      · simp only [combine_chunks, if_neg hf]
        rw [ih (grow_buffer buffer chunk), grow_buffer_words]
        simp [List.append_assoc]

/-- C7 counterexample.  The claim fails as stated: `re.split(r'^#+\s', ...)` removes the
heading markers, so chunking the document `'# A b'` and reassembling the chunks loses the
leading `'#'` and does not reproduce the whitespace-normalized original. -/
theorem chunk_roundtrip_counterexample :
    ¬ (normalize_ws (reassemble (split_markdown_chunks exampleHeadingDoc 500)) =
        normalize_ws exampleHeadingDoc) := by decide

/-- C7 amended.  For every document in which the heading splitter never matches (no line
begins with a run of `'#'` followed by whitespace, so `re.split` returns the document
whole), splitting with `split_markdown_chunks` at the source's parameters (500 words,
minimum 100) and reassembling all returned chunks in order reproduces the original
whitespace-normalized text. -/
theorem chunk_roundtrip_no_heading :
    ∀ (markdown_document : List Char),
      re_split_heading markdown_document = [markdown_document] →
      normalize_ws (reassemble (split_markdown_chunks markdown_document 500)) =
        normalize_ws markdown_document := by
  intro doc hdoc
  unfold split_markdown_chunks
  rw [hdoc]
  simp only [List.foldl_cons, List.foldl_nil]
  unfold process_text
  by_cases h : 500 < (py_split_ws doc).length
  · simp only [if_pos h, List.nil_append]
    unfold normalize_ws reassemble
    rw [py_split_ws_join_sep_space, combine_chunks_words]
    rw [List.map_map]
    have hclean : ∀ b ∈ chunk_words 500 (py_split_ws doc),
        (py_split_ws ∘ join_sep [' ']) b = id b := by
      intro b hb
      show py_split_ws (join_sep [' '] b) = b
      apply words_of_clean_list
      intro w hw
      have hw2 : w ∈ (chunk_words 500 (py_split_ws doc)).flatten :=
        List.mem_flatten.mpr ⟨b, hb, hw⟩
      rw [chunk_words_flatten] at hw2
      exact py_split_ws_clean doc w hw2
    rw [List.map_congr_left hclean, List.map_id, chunk_words_flatten]
    rfl
  · simp only [if_neg h]
    rw [if_neg (by simp)]
    simp [reassemble, join_sep]

/-- Witness for C7 amended: a plain two-word document with no heading marker. -/
theorem chunk_roundtrip_no_heading_witness :
    re_split_heading examplePlainDoc = [examplePlainDoc] ∧
    normalize_ws (reassemble (split_markdown_chunks examplePlainDoc 500)) =
      normalize_ws examplePlainDoc :=
  ⟨by decide, chunk_roundtrip_no_heading examplePlainDoc (by decide)⟩

end AiLivestream
